import Mathlib

/-!
Shallow embedding of the Hashview backend's geofenced review verification and
anti-fraud reward issuance core: coupon utilities (src/utils/coupon.js), the
Coupon model's validity method (src/models/Coupon.model.js), the coupon expiry
sweep and scan-redeem flow (src/controllers/businessCoupon.controller.js and
the cron job file), the review creation orchestrator
(src/controllers/review.controller.js), and the geolocation utilities
(src/utils/geolocation.js).

Conventions: timestamps are epoch milliseconds as naturals; JS numbers in the
business logic are rationals; nullable / possibly-undefined JS values are
`Option`; JS truthiness tests on numbers are embedded explicitly (`0` and
`null`/`undefined` are falsy).  The geolocation utilities, which do real
trigonometry, are embedded over `Option ℝ` where `none` plays the role of NaN.
-/

namespace Hashview

/-- Coupon reward types (`rewardType` enum in Coupon.model.js). -/
inductive RewardType
  | percentage
  | fixed
  | buy1get1
  | free_drink
  | free_item
deriving DecidableEq, Repr

/-- Coupon status enum in Coupon.model.js
(`active`, `redeemed`, `expired`, `cancelled`, `inactive`). -/
inductive CouponStatus
  | active
  | redeemed
  | expired
  | cancelled
  | inactive
deriving DecidableEq, Repr

/-- Coupon type: `business` templates vs auto-issued `review_reward` coupons. -/
inductive CouponType
  | business
  | review_reward
deriving DecidableEq, Repr

/-- The Coupon document (fields of Coupon.model.js used by the core logic).
Date-valued fields (`validFrom`, `validUntil`, `redeemedAt`) and nullable
numeric fields are `Option`. -/
structure Coupon where
  id : ℕ
  business : ℕ
  ctype : CouponType
  user : Option ℕ
  review : Option ℕ
  code : String
  rewardType : RewardType
  rewardValue : ℚ
  minPurchaseAmount : ℚ
  maxDiscountAmount : Option ℚ
  validFrom : Option ℕ
  validUntil : Option ℕ
  usageLimit : Option ℕ
  usageCount : ℕ
  redemptionLimit : Option ℕ
  redemptionCount : ℕ
  status : CouponStatus
  isActive : Bool
  redeemedAt : Option ℕ
  redeemedBy : Option ℕ
deriving DecidableEq, Repr

/-- `calculateDiscount(coupon, purchaseAmount)` from src/utils/coupon.js.
The percentage branch mirrors `if (coupon.maxDiscountAmount && discount >
coupon.maxDiscountAmount) discount = coupon.maxDiscountAmount`: a `null` or
`0` cap is falsy in JS, so no capping happens then. -/
def calculateDiscount (c : Coupon) (purchaseAmount : ℚ) : ℚ :=
  match c.rewardType with
  | RewardType.percentage =>
      let discount := purchaseAmount * c.rewardValue / 100
      match c.maxDiscountAmount with
      | some m => if m ≠ 0 ∧ m < discount then m else discount
      | none => discount
  | RewardType.fixed => min c.rewardValue purchaseAmount
  | RewardType.buy1get1 => purchaseAmount * c.rewardValue / 100
  | RewardType.free_drink => min c.rewardValue purchaseAmount
  | RewardType.free_item => min c.rewardValue purchaseAmount

/-- `calculateCouponExpiry(hours = 2)` from src/utils/coupon.js:
`new Date(now.getTime() + hours * 60 * 60 * 1000)`, with the current time
passed explicitly. -/
def calculateCouponExpiry (now : ℕ) (hours : ℕ) : ℕ :=
  now + hours * 60 * 60 * 1000

/-- Helper: the JS test `coupon.validUntil && now > coupon.validUntil`
(false when `validUntil` is unset). -/
def validUntilLt (c : Coupon) (now : ℕ) : Bool :=
  match c.validUntil with
  | some vu => decide (vu < now)
  | none => false

/-- `isCouponValid(coupon)` from src/utils/coupon.js, with the clock explicit:
not `active` → false; `new Date() > coupon.validUntil` → false (an unset
`validUntil` yields an invalid date, and that comparison is false in JS). -/
def isCouponValid (c : Coupon) (now : ℕ) : Bool :=
  if c.status ≠ CouponStatus.active then false
  else if validUntilLt c now then false
  else true

/-- The `couponSchema.methods.isValid` method of src/models/Coupon.model.js,
with the clock explicit.  Checks, in order: `!this.isActive || this.status ===
'inactive'`; `this.validFrom && now < this.validFrom`; `this.validUntil && now
> this.validUntil`; for `business` type, `this.usageLimit && this.usageCount
>= this.usageLimit` (a `0` usage limit is falsy); for `review_reward` type,
`this.status === 'redeemed'`. -/
def Coupon.isValid (c : Coupon) (now : ℕ) : Bool :=
  if !c.isActive || c.status = CouponStatus.inactive then false
  else if (match c.validFrom with
           | some vf => decide (now < vf)
           | none => false) then false
  else if validUntilLt c now then false
  else if c.ctype = CouponType.business &&
          (match c.usageLimit with
           | some l => decide (l ≠ 0) && decide (l ≤ c.usageCount)
           | none => false) then false
  else if c.ctype = CouponType.review_reward &&
          c.status = CouponStatus.redeemed then false
  else true

/-- One coupon under the cron sweep `expireCoupons` (src/utils sync-jobs
file): `updateMany({type:'review_reward', status:'active', validUntil:{$lt:
now}}, {$set:{status:'expired'}})` touches a coupon iff it matches the
filter. -/
def expireOne (now : ℕ) (c : Coupon) : Coupon :=
  if c.ctype = CouponType.review_reward ∧ c.status = CouponStatus.active ∧
     validUntilLt c now then
    { c with status := CouponStatus.expired }
  else c

/-- The full sweep over the coupon store. -/
def expireCoupons (now : ℕ) (cs : List Coupon) : List Coupon :=
  cs.map (expireOne now)

/-- Outcome of `scanAndRedeemCoupon` once the coupon is loaded and the caller
is authorized (src/controllers/businessCoupon.controller.js). -/
inductive RedeemOutcome
  | alreadyRedeemed
  | expired
  | notValid
  | success
deriving DecidableEq, Repr

/-- The status/validity/redeem core of `scanAndRedeemCoupon`: first the
`status === 'redeemed'` early return, then the `status === 'expired' ||
(coupon.validUntil && now > coupon.validUntil)` early return (auto-expiring an
active past-`validUntil` coupon), then the `!coupon.isValid()` check, then the
redemption proper (`status = 'redeemed'; redeemedAt = now; redeemedBy =
caller`). Returns the outcome and the stored coupon afterwards. -/
def scanRedeem (now redeemerId : ℕ) (c : Coupon) : RedeemOutcome × Coupon :=
  if c.status = CouponStatus.redeemed then
    (RedeemOutcome.alreadyRedeemed, c)
  else if c.status = CouponStatus.expired ∨ validUntilLt c now then
    (RedeemOutcome.expired,
     if c.status ≠ CouponStatus.expired then
       { c with status := CouponStatus.expired }
     else c)
  else if !(c.isValid now) then
    (RedeemOutcome.notValid, c)
  else
    (RedeemOutcome.success,
     { c with status := CouponStatus.redeemed,
              redeemedAt := some now,
              redeemedBy := some redeemerId })

/-- A client-reported anomaly event from the submission's
`suspiciousActivities` array (only its `type` matters to the core). -/
structure Anomaly where
  atype : String
deriving DecidableEq, Repr

/-- The security metadata fields of a review submission body used by the
fraud-evaluation stage of `createReview`.  Absent fields are `none`. -/
structure SecurityMeta where
  locationAccuracy : Option ℚ
  verificationTime : Option ℚ
  motionDetected : Option Bool
  isMockLocation : Option Bool
  locationHistoryCount : Option ℕ
  suspiciousActivities : Option (List Anomaly)
  deviceFingerprint : Option ℕ
  devicePlatform : Option String
deriving DecidableEq, Repr

/-- A submission with every security-metadata field absent. -/
def emptyMeta : SecurityMeta :=
  ⟨none, none, none, none, none, none, none, none⟩

/-- An entry appended by `logSuspiciousBehavior(userId, eventType, metadata)`
in src/controllers/review.controller.js (the metadata always carries the
business id in the fraud-stage calls). -/
structure LogEntry where
  userId : ℕ
  eventType : String
  businessId : ℕ
deriving DecidableEq, Repr

/-- A Review document (fields of Review.model.js the core reads or writes;
`deviceId` abbreviates `securityMetadata.deviceFingerprint.deviceId`). -/
structure Review where
  id : ℕ
  user : ℕ
  business : ℕ
  rating : ℚ
  comment : String
  verified : Bool
  status : String
  createdAt : ℕ
  deviceId : Option ℕ
  actualDistance : ℚ
  couponAwarded : Bool
  coupon : Option ℕ
deriving DecidableEq, Repr

/-- A Business document (fields used by `createReview`). -/
structure Business where
  id : ℕ
  owner : ℕ
  lat : ℚ
  lon : ℚ
  radius : ℚ
  status : String
  ratingAverage : ℚ
  ratingCount : ℕ
  reviewCount : ℕ
deriving DecidableEq, Repr

/-- The backing store the review-creation flow reads and writes. -/
structure DB where
  businesses : List Business
  reviews : List Review
  coupons : List Coupon
deriving DecidableEq, Repr

/-- The review submission request body (`req.body` plus `req.user.id`). -/
structure ReviewRequest where
  userId : ℕ
  businessId : ℕ
  rating : ℚ
  comment : String
  latitude : ℚ
  longitude : ℚ
  meta : SecurityMeta
deriving DecidableEq, Repr

/-- Ambient effects of one `createReview` call: the clock (`new Date()`), the
random coupon code (`generateCouponCode` uses `Math.random`), fresh document
ids, and the geolocation module's verdicts for the submitted coordinates. -/
structure Env where
  now : ℕ
  couponCode : String
  newReviewId : ℕ
  newCouponId : ℕ
  geoWithin : ℚ → ℚ → ℚ → ℚ → ℚ → Bool
  geoDistance : ℚ → ℚ → ℚ → ℚ → ℚ
deriving Inhabited

/-- `today` in `createReview`: the start of the current day
(`today.setHours(0,0,0,0)`), modelled on a UTC day grid. -/
def startOfDay (now : ℕ) : ℕ :=
  (now / 86400000) * 86400000

/-- `Review.countDocuments({user, createdAt: {$gte: today}})`. -/
def countToday (reviews : List Review) (uid today : ℕ) : ℕ :=
  (reviews.filter (fun r => r.user = uid ∧ today ≤ r.createdAt)).length

/-- `Review.findOne({user, business, createdAt: {$gte: today}})` as a
Bool-valued existence check. -/
def hasDuplicate (reviews : List Review) (uid bid today : ℕ) : Bool :=
  reviews.any (fun r => r.user = uid ∧ r.business = bid ∧ today ≤ r.createdAt)

/-- `Review.countDocuments({user, 'securityMetadata.deviceFingerprint
.deviceId': d, createdAt: {$gte: today}})`. -/
def countSameDevice (reviews : List Review) (uid d today : ℕ) : ℕ :=
  (reviews.filter
    (fun r => r.user = uid ∧ r.deviceId = some d ∧ today ≤ r.createdAt)).length

/-- Hard rejection reasons of the fraud-evaluation stage. -/
inductive FraudReject
  | poorGpsAccuracy
  | mockLocation
  | multipleConcerns
deriving DecidableEq, Repr

/-- Decision of the fraud-evaluation stage. -/
inductive FraudDecision
  | reject (r : FraudReject)
  | proceed
deriving DecidableEq, Repr

/-- The advisory `VERIFICATION_TIME_MISMATCH` log of `createReview`:
recorded when `verificationTime !== undefined && verificationTime !== 30`. -/
def vtLog (uid bid : ℕ) (m : SecurityMeta) : List LogEntry :=
  match m.verificationTime with
  | some v => if v ≠ 30 then [⟨uid, "VERIFICATION_TIME_MISMATCH", bid⟩] else []
  | none => []

/-- The `INSUFFICIENT_LOCATION_HISTORY` log: recorded when
`locationHistoryCount !== undefined && locationHistoryCount < 5`. -/
def histLog (uid bid : ℕ) (m : SecurityMeta) : List LogEntry :=
  match m.locationHistoryCount with
  | some n => if n < 5 then [⟨uid, "INSUFFICIENT_LOCATION_HISTORY", bid⟩] else []
  | none => []

/-- The per-anomaly `FRONTEND_<type>` log entries (one per element of
`suspiciousActivities` when the array is present and non-empty). -/
def frontendLog (uid bid : ℕ) (m : SecurityMeta) : List LogEntry :=
  match m.suspiciousActivities with
  | some l => l.map (fun a => ⟨uid, "FRONTEND_" ++ a.atype, bid⟩)
  | none => []

/-- The `MULTIPLE_DEVICE_REVIEWS` log: recorded when `deviceFingerprint` is
present and the same-user same-device count today is ≥ 3. -/
def deviceLog (uid bid today : ℕ) (m : SecurityMeta)
    (reviews : List Review) : List LogEntry :=
  match m.deviceFingerprint with
  | some d =>
      if 3 ≤ countSameDevice reviews uid d today then
        [⟨uid, "MULTIPLE_DEVICE_REVIEWS", bid⟩]
      else []
  | none => []

/-- The fraud-evaluation stage of `createReview`
(src/controllers/review.controller.js, the block between the geofence check
and `Review.create`).  Checks run in source order: GPS accuracy
(`locationAccuracy && locationAccuracy > 50` → reject), verification-time
advisory log, mock location (`isMockLocation === true` → reject), location
history (log only), client-reported anomalies (each logged; length ≥ 3 →
reject), same-device review count (log only).  Returns the decision and the
suspicious-activity entries appended, in order. -/
def fraudEval (uid bid today : ℕ) (m : SecurityMeta)
    (reviews : List Review) : FraudDecision × List LogEntry :=
  if (match m.locationAccuracy with
      | some a => decide (50 < a)
      | none => false) then
    (FraudDecision.reject FraudReject.poorGpsAccuracy,
     [⟨uid, "POOR_GPS_ACCURACY", bid⟩])
  else if (match m.isMockLocation with
           | some b => b
           | none => false) then
    (FraudDecision.reject FraudReject.mockLocation,
     vtLog uid bid m ++ [⟨uid, "MOCK_LOCATION_DETECTED", bid⟩])
  else if (match m.suspiciousActivities with
           | some l => decide (3 ≤ l.length)
           | none => false) then
    (FraudDecision.reject FraudReject.multipleConcerns,
     vtLog uid bid m ++ histLog uid bid m ++ frontendLog uid bid m)
  else
    (FraudDecision.proceed,
     vtLog uid bid m ++ histLog uid bid m ++ frontendLog uid bid m ++
       deviceLog uid bid today m reviews)

/-- Result of one `createReview` call. -/
inductive CreateResult
  | businessNotFound
  | businessNotActive
  | rateLimited
  | duplicate
  | geofenceViolation (distance radius : ℚ)
  | fraudRejected (r : FraudReject)
  | createdNoCoupon (reviewId : ℕ)
  | createdWithCoupon (reviewId couponId : ℕ)
deriving DecidableEq, Repr

/-- Output of one `createReview` call: the HTTP-level result, the store
afterwards, and the suspicious-activity entries appended. -/
structure CreateOutput where
  res : CreateResult
  db : DB
  logs : List LogEntry
deriving DecidableEq, Repr

/-- Template fallbacks used at mint time (`couponTemplate?.rewardValue || 10`
etc.): JS `||` replaces falsy values (absent template, `0`, `null`) by the
default. -/
def mintRewardValue (t : Option Coupon) : ℚ :=
  match t with
  | some tpl => if tpl.rewardValue = 0 then 10 else tpl.rewardValue
  | none => 10

/-- `couponTemplate?.rewardType || 'percentage'` (enum strings are truthy). -/
def mintRewardType (t : Option Coupon) : RewardType :=
  match t with
  | some tpl => tpl.rewardType
  | none => RewardType.percentage

/-- `couponTemplate?.minPurchaseAmount || 0` (a zero minimum maps to the
default 0, so the fallback is the identity on zero). -/
def mintMinPurchase (t : Option Coupon) : ℚ :=
  match t with
  | some tpl => if tpl.minPurchaseAmount = 0 then 0 else tpl.minPurchaseAmount
  | none => 0

/-- `couponTemplate?.maxDiscountAmount || null` (a `0` cap is falsy and maps
to `null`). -/
def mintMaxDiscount (t : Option Coupon) : Option ℚ :=
  match t with
  | some tpl =>
      match tpl.maxDiscountAmount with
      | some m => if m = 0 then none else some m
      | none => none
  | none => none

/-- `Coupon.findOne({business, type:'business', isActive:true})`. -/
def findActiveTemplate (coupons : List Coupon) (bid : ℕ) : Option Coupon :=
  coupons.find? (fun c =>
    c.business = bid ∧ c.ctype = CouponType.business ∧ c.isActive)

/-- `Coupon.countDocuments({business, type:'review_reward',
status:'redeemed'})`. -/
def countRedeemed (coupons : List Coupon) (bid : ℕ) : ℕ :=
  (coupons.filter (fun c =>
    c.business = bid ∧ c.ctype = CouponType.review_reward ∧
      c.status = CouponStatus.redeemed)).length

/-- The review-reward coupon document built by `Coupon.create` in
`createReview` (2-hour validity via `couponExpiry.setHours(getHours() + 2)`,
modelled as +2h of absolute time). -/
def mintCoupon (env : Env) (bid uid rid : ℕ) (t : Option Coupon) : Coupon :=
  { id := env.newCouponId
    business := bid
    ctype := CouponType.review_reward
    user := some uid
    review := some rid
    code := env.couponCode
    rewardType := mintRewardType t
    rewardValue := mintRewardValue t
    minPurchaseAmount := mintMinPurchase t
    maxDiscountAmount := mintMaxDiscount t
    validFrom := some env.now
    validUntil := some (env.now + 2 * 60 * 60 * 1000)
    usageLimit := none
    usageCount := 0
    redemptionLimit := none
    redemptionCount := 0
    status := CouponStatus.active
    isActive := true
    redeemedAt := none
    redeemedBy := none }

/-- Sum of the ratings of a list of reviews. -/
def ratingSum (rs : List Review) : ℚ :=
  rs.foldl (fun s r => s + r.rating) 0

/-- The Review document built by `Review.create` in `createReview`
(`verified: true`, model-default status `approved`). -/
def newReview (env : Env) (req : ReviewRequest) (dist : ℚ) : Review :=
  { id := env.newReviewId
    user := req.userId
    business := req.businessId
    rating := req.rating
    comment := req.comment
    verified := true
    status := "approved"
    createdAt := env.now
    deviceId := req.meta.deviceFingerprint
    actualDistance := dist
    couponAwarded := false
    coupon := none }

/-- The `couponTemplate && redemptionLimit !== null && redeemedCount >=
limit` gate of `createReview`. -/
def limitReached (coupons : List Coupon) (bid : ℕ) : Bool :=
  match findActiveTemplate coupons bid with
  | some t =>
      match t.redemptionLimit with
      | some lim => decide (lim ≤ countRedeemed coupons bid)
      | none => false
  | none => false

/-- The persistence tail of `createReview`, entered once every check has
passed: persist the review, re-aggregate the business rating over
`Review.find({business})`, gate on the template redemption limit, and
otherwise mint the reward coupon, bump the template's `usageCount`, and link
the coupon back to the review. -/
def persistAndReward (env : Env) (db : DB) (req : ReviewRequest)
    (b : Business) (logs : List LogEntry) : CreateOutput :=
  let dist := env.geoDistance req.latitude req.longitude b.lat b.lon
  let review := newReview env req dist
  let reviews1 := db.reviews ++ [review]
  let bizReviews := reviews1.filter (fun r => r.business = req.businessId)
  let avg := ratingSum bizReviews / (bizReviews.length : ℚ)
  let b1 := { b with ratingAverage := avg,
                     ratingCount := bizReviews.length,
                     reviewCount := bizReviews.length }
  let businesses1 := db.businesses.map (fun x => if x.id = b.id then b1 else x)
  let tpl := findActiveTemplate db.coupons req.businessId
  if limitReached db.coupons req.businessId then
    ⟨CreateResult.createdNoCoupon env.newReviewId,
     ⟨businesses1, reviews1, db.coupons⟩, logs⟩
  else
    let coupon := mintCoupon env req.businessId req.userId env.newReviewId tpl
    let coupons1 :=
      match tpl with
      | some t =>
          (db.coupons.map (fun c =>
            if c.id = t.id then { c with usageCount := c.usageCount + 1 }
            else c)) ++ [coupon]
      | none => db.coupons ++ [coupon]
    let review1 := { review with couponAwarded := true,
                                 coupon := some env.newCouponId }
    let reviews2 := db.reviews ++ [review1]
    ⟨CreateResult.createdWithCoupon env.newReviewId env.newCouponId,
     ⟨businesses1, reviews2, coupons1⟩, logs⟩

/-- The fraud-evaluation stage and everything after it. -/
def afterGuards (env : Env) (db : DB) (req : ReviewRequest)
    (b : Business) : CreateOutput :=
  match fraudEval req.userId req.businessId (startOfDay env.now) req.meta
      db.reviews with
  | (FraudDecision.reject k, logs) =>
      ⟨CreateResult.fraudRejected k, db, logs⟩
  | (FraudDecision.proceed, logs) => persistAndReward env db req b logs

/-- `createReview` (src/controllers/review.controller.js): business lookup
and active check, rate limit, duplicate check, geofence, fraud evaluation,
review persistence (`verified: true`, default status `approved`), full rating
re-aggregation over `Review.find({business})`, template lookup,
redemption-limit gate, coupon mint with template-or-default values, template
`usageCount` increment, and the review's coupon back-reference. -/
def createReview (env : Env) (db : DB) (req : ReviewRequest) : CreateOutput :=
  match db.businesses.find? (fun b => b.id = req.businessId) with
  | none => ⟨CreateResult.businessNotFound, db, []⟩
  | some b =>
    if b.status ≠ "active" then
      ⟨CreateResult.businessNotActive, db, []⟩
    else
      let today := startOfDay env.now
      if 5 ≤ countToday db.reviews req.userId today then
        ⟨CreateResult.rateLimited, db,
         [⟨req.userId, "RATE_LIMIT_EXCEEDED", req.businessId⟩]⟩
      else if hasDuplicate db.reviews req.userId req.businessId today then
        ⟨CreateResult.duplicate, db, []⟩
      else
        let dist := env.geoDistance req.latitude req.longitude b.lat b.lon
        if !(env.geoWithin req.latitude req.longitude b.lat b.lon b.radius) then
          ⟨CreateResult.geofenceViolation dist b.radius, db,
           [⟨req.userId, "GEOFENCE_VIOLATION", req.businessId⟩]⟩
        else afterGuards env db req b

/-! ## Geolocation utilities (src/utils/geolocation.js)

JS numbers are embedded as `Option ℝ`: `none` is NaN, `some x` a finite
value.  Arithmetic and the trigonometric library functions propagate NaN;
`Math.sqrt` of a negative argument is NaN; any comparison against NaN is
false. -/

noncomputable section

/-- A JS number: `none` is NaN. -/
abbrev JsNum := Option ℝ

/-- NaN-propagating binary arithmetic. -/
def jbin (f : ℝ → ℝ → ℝ) : JsNum → JsNum → JsNum
  | some x, some y => some (f x y)
  | _, _ => none

/-- NaN-propagating unary function application. -/
def jmap (f : ℝ → ℝ) : JsNum → JsNum
  | some x => some (f x)
  | none => none

def jadd : JsNum → JsNum → JsNum := jbin (fun x y => x + y)

def jsub : JsNum → JsNum → JsNum := jbin (fun x y => x - y)

def jmul : JsNum → JsNum → JsNum := jbin (fun x y => x * y)

def jdiv : JsNum → JsNum → JsNum := jbin (fun x y => x / y)

def jsin : JsNum → JsNum := jmap Real.sin

def jcos : JsNum → JsNum := jmap Real.cos

/-- `Math.sqrt`: NaN on NaN or negative input. -/
def jsqrt : JsNum → JsNum
  | some x => if x < 0 then none else some (Real.sqrt x)
  | none => none

/-- `Math.atan2(y, x)` on finite arguments. -/
def atan2 (y x : ℝ) : ℝ :=
  if 0 < x then Real.arctan (y / x)
  else if x < 0 then
    (if 0 ≤ y then Real.arctan (y / x) + Real.pi
     else Real.arctan (y / x) - Real.pi)
  else if 0 < y then Real.pi / 2
  else if y < 0 then -(Real.pi / 2)
  else 0

def jatan2 : JsNum → JsNum → JsNum := jbin atan2

/-- JS `<=`: false whenever either side is NaN. -/
def jle : JsNum → JsNum → Bool
  | some x, some y => decide (x ≤ y)
  | _, _ => false

/-- `calculateDistance(lat1, lon1, lat2, lon2)` from src/utils/geolocation.js
(haversine on a 6,371,000 m sphere), NaN-propagating. -/
def calculateDistance (lat1 lon1 lat2 lon2 : JsNum) : JsNum :=
  let jpi : JsNum := some Real.pi
  let phi1 := jdiv (jmul lat1 jpi) (some 180)
  let phi2 := jdiv (jmul lat2 jpi) (some 180)
  let dphi := jdiv (jmul (jsub lat2 lat1) jpi) (some 180)
  let dlam := jdiv (jmul (jsub lon2 lon1) jpi) (some 180)
  let sdphi := jsin (jdiv dphi (some 2))
  let sdlam := jsin (jdiv dlam (some 2))
  let a := jadd (jmul sdphi sdphi)
                (jmul (jmul (jcos phi1) (jcos phi2)) (jmul sdlam sdlam))
  let c := jmul (some 2) (jatan2 (jsqrt a) (jsqrt (jsub (some 1) a)))
  jmul (some 6371000) c

/-- `isWithinGeofence(userLat, userLon, businessLat, businessLon, radius)`:
`calculateDistance(...) <= radius`. -/
def isWithinGeofence
    (userLat userLon businessLat businessLon radius : JsNum) : Bool :=
  jle (calculateDistance userLat userLon businessLat businessLon) radius

/-- The haversine great-circle distance as a plain real-valued function (the
mathematical reading of the spec's `distanceMeters`). -/
def haversineDistance (lat1 lon1 lat2 lon2 : ℝ) : ℝ :=
  let phi1 := lat1 * Real.pi / 180
  let phi2 := lat2 * Real.pi / 180
  let dphi := (lat2 - lat1) * Real.pi / 180
  let dlam := (lon2 - lon1) * Real.pi / 180
  let a := Real.sin (dphi / 2) * Real.sin (dphi / 2) +
           Real.cos phi1 * Real.cos phi2 *
             (Real.sin (dlam / 2) * Real.sin (dlam / 2))
  6371000 * (2 * atan2 (Real.sqrt a) (Real.sqrt (1 - a)))

end

/-! ## Concrete fixtures used by counterexamples and witnesses -/

/-- A plain active review-reward coupon, valid on `[0, 1000]`. -/
def baseCoupon : Coupon :=
  { id := 0
    business := 0
    ctype := CouponType.review_reward
    user := none
    review := none
    code := "HASH-AAAAAA"
    rewardType := RewardType.percentage
    rewardValue := 10
    minPurchaseAmount := 0
    maxDiscountAmount := none
    validFrom := some 0
    validUntil := some 1000
    usageLimit := none
    usageCount := 0
    redemptionLimit := none
    redemptionCount := 0
    status := CouponStatus.active
    isActive := true
    redeemedAt := none
    redeemedBy := none }

/-- A percentage coupon whose cap is the (falsy) value `0`. -/
def capZeroCoupon : Coupon :=
  { baseCoupon with maxDiscountAmount := some 0 }

/-- The spec's fixture: percentage 10% capped at 5. -/
def capFiveCoupon : Coupon :=
  { baseCoupon with maxDiscountAmount := some 5 }

/-- A business-type coupon already marked redeemed but with `isActive = true`
and in-window dates. -/
def redeemedBusinessCoupon : Coupon :=
  { baseCoupon with ctype := CouponType.business,
                    status := CouponStatus.redeemed }

/-- An ambient environment with a permissive geofence verdict: mid-day on day
10, fresh ids 100 (review) and 200 (coupon). -/
def trivEnv : Env :=
  { now := 864005000
    couponCode := "HASH-XYZ123"
    newReviewId := 100
    newCouponId := 200
    geoWithin := fun _ _ _ _ _ => true
    geoDistance := fun _ _ _ _ => 0 }

/-- An active business with id 1. -/
def baseBusiness : Business :=
  { id := 1
    owner := 2
    lat := 0
    lon := 0
    radius := 50
    status := "active"
    ratingAverage := 0
    ratingCount := 0
    reviewCount := 0 }

/-- A clean submission by user 3 for business 1. -/
def baseReq : ReviewRequest :=
  { userId := 3
    businessId := 1
    rating := 5
    comment := "Great place to eat!"
    latitude := 0
    longitude := 0
    meta := emptyMeta }

/-- An active business-type coupon template for business 1 whose
`rewardValue` is the (falsy) value `0`. -/
def zeroValueTemplate : Coupon :=
  { baseCoupon with id := 50
                    business := 1
                    ctype := CouponType.business
                    rewardValue := 0
                    validUntil := none }

/-- Store for the C5 counterexample: one active business, no reviews, the
zero-`rewardValue` template. -/
def c5db : DB :=
  { businesses := [baseBusiness], reviews := [], coupons := [zeroValueTemplate] }

/-- A rejected-status review of business 1 from an earlier day. -/
def rejectedReview : Review :=
  { id := 90
    user := 8
    business := 1
    rating := 1
    comment := "Terrible experience."
    verified := true
    status := "rejected"
    createdAt := 0
    deviceId := none
    actualDistance := 0
    couponAwarded := false
    coupon := none }

/-- Store for the C7 counterexample: one active business and one
rejected-status review with rating 1. -/
def c7db : DB :=
  { businesses := [baseBusiness], reviews := [rejectedReview], coupons := [] }

/-- Store for witnesses: one active business, nothing else. -/
def cleanDb : DB :=
  { businesses := [baseBusiness], reviews := [], coupons := [] }

/-- Metadata for the C1 counterexample: a low location-history count together
with three client-reported anomalies. -/
def c1meta : SecurityMeta :=
  { emptyMeta with locationHistoryCount := some 2
                   suspiciousActivities := some [⟨"A"⟩, ⟨"B"⟩, ⟨"C"⟩] }

/-- A same-day review by user 3 for business 1 (day 10). -/
def dupReview : Review :=
  { id := 91
    user := 3
    business := 1
    rating := 4
    comment := "Nice food and service."
    verified := true
    status := "approved"
    createdAt := 864001000
    deviceId := none
    actualDistance := 0
    couponAwarded := false
    coupon := none }

/-- Store for the C3 witness: business 1 already reviewed today by user 3. -/
def dupDb : DB :=
  { businesses := [baseBusiness], reviews := [dupReview], coupons := [] }

/-- An active business-type template for business 1 with redemption limit 1. -/
def limitTemplate : Coupon :=
  { baseCoupon with id := 60
                    business := 1
                    ctype := CouponType.business
                    redemptionLimit := some 1
                    validUntil := none }

/-- A redeemed review-reward coupon for business 1. -/
def redeemedReward : Coupon :=
  { baseCoupon with id := 61
                    business := 1
                    status := CouponStatus.redeemed }

/-- Store for the C5 witness: the limit-1 template and one already-redeemed
reward coupon. -/
def limitDb : DB :=
  { businesses := [baseBusiness], reviews := [],
    coupons := [limitTemplate, redeemedReward] }

/-! ## Shared lemmas -/

/-- A coupon found by `findActiveTemplate` is in the store, is a business
template for the business, and is active. -/
theorem findActiveTemplate_spec {cs : List Coupon} {bid : ℕ} {t : Coupon}
    (h : findActiveTemplate cs bid = some t) :
    t ∈ cs ∧ t.business = bid ∧ t.ctype = CouponType.business ∧
      t.isActive = true := by
  have hm := List.mem_of_find?_eq_some h
  have hp := List.find?_some h
  simp only [decide_eq_true_eq] at hp
  exact ⟨hm, hp.1, hp.2.1, hp.2.2⟩

/-- In a list with pairwise-distinct ids, two members with equal ids are
equal. -/
theorem eq_of_id_eq {l : List Coupon}
    (h : l.Pairwise (fun a b => a.id ≠ b.id)) {x y : Coupon}
    (hx : x ∈ l) (hy : y ∈ l) (hid : x.id = y.id) : x = y := by
  induction l with
  | nil => exact absurd hx (List.not_mem_nil x)
  | cons a t ih =>
    rw [List.pairwise_cons] at h
    rcases List.mem_cons.mp hx with rfl | hx' <;>
      rcases List.mem_cons.mp hy with rfl | hy'
    · rfl
    · exact absurd hid (h.1 y hy')
    · exact absurd hid.symm (h.1 x hx')
    · exact ih h.2 hx' hy'

/-- `ratingSum` with an arbitrary accumulator. -/
theorem ratingSum_foldl (l : List Review) (init : ℚ) :
    l.foldl (fun s r => s + r.rating) init = init + ratingSum l := by
  induction l generalizing init with
  | nil => simp [ratingSum]
  | cons a t ih =>
    rw [List.foldl_cons, ih]
    have h2 : ratingSum (a :: t) = (0 + a.rating) + ratingSum t := by
      rw [ratingSum, List.foldl_cons, ih]
    rw [h2]
    ring

/-- `ratingSum` distributes over append. -/
theorem ratingSum_append (l1 l2 : List Review) :
    ratingSum (l1 ++ l2) = ratingSum l1 + ratingSum l2 := by
  simp only [ratingSum, List.foldl_append]
  rw [ratingSum_foldl]
  rfl

/-- `ratingSum` of a one-element append. -/
theorem ratingSum_snoc (l : List Review) (r : Review) :
    ratingSum (l ++ [r]) = ratingSum l + r.rating := by
  rw [ratingSum_append]
  simp [ratingSum]

/-- Filtering by business distributes over appending one matching review. -/
theorem filter_business_snoc (l : List Review) (r : Review) (bid : ℕ)
    (h : r.business = bid) :
    (l ++ [r]).filter (fun x => x.business = bid) =
      l.filter (fun x => x.business = bid) ++ [r] := by
  simp [List.filter_append, List.filter_cons, h]

/-- The fraud stage of a submission with no security metadata proceeds and
logs nothing. -/
theorem fraudEval_emptyMeta (uid bid today : ℕ) (rs : List Review) :
    fraudEval uid bid today emptyMeta rs = (FraudDecision.proceed, []) := rfl

/-- Under passing guards, `createReview` reduces to the fraud stage and its
tail. -/
theorem createReview_guards (env : Env) (db : DB) (req : ReviewRequest)
    (b : Business)
    (hfind : db.businesses.find? (fun x => x.id = req.businessId) = some b)
    (hact : b.status = "active")
    (hrate : countToday db.reviews req.userId (startOfDay env.now) < 5)
    (hdup : hasDuplicate db.reviews req.userId req.businessId
      (startOfDay env.now) = false)
    (hgeo : env.geoWithin req.latitude req.longitude b.lat b.lon b.radius
      = true) :
    createReview env db req = afterGuards env db req b := by
  simp only [createReview, hfind]
  rw [if_neg (by simp [hact]), if_neg (not_le.mpr hrate),
    if_neg (by simp [hdup]), if_neg (by simp [hgeo])]

/-! ## C9 — discount calculation -/

/-- C9 (amended): `calculateDiscount` per reward type: percentage is
`purchaseAmount * rewardValue / 100`, capped at `maxDiscountAmount` when the
cap is set and non-zero (a zero cap is falsy in JS and caps nothing); fixed,
free_drink and free_item give `min(rewardValue, purchaseAmount)`; buy1get1
gives `purchaseAmount * rewardValue / 100`. -/
theorem calculateDiscount_spec (c : Coupon) (amt : ℚ) :
    (c.rewardType = RewardType.percentage →
      (c.maxDiscountAmount = none →
        calculateDiscount c amt = amt * c.rewardValue / 100) ∧
      (∀ m, c.maxDiscountAmount = some m → m ≠ 0 →
        calculateDiscount c amt = min (amt * c.rewardValue / 100) m) ∧
      (c.maxDiscountAmount = some 0 →
        calculateDiscount c amt = amt * c.rewardValue / 100)) ∧
    (c.rewardType = RewardType.fixed →
      calculateDiscount c amt = min c.rewardValue amt) ∧
    (c.rewardType = RewardType.buy1get1 →
      calculateDiscount c amt = amt * c.rewardValue / 100) ∧
    (c.rewardType = RewardType.free_drink →
      calculateDiscount c amt = min c.rewardValue amt) ∧
    (c.rewardType = RewardType.free_item →
      calculateDiscount c amt = min c.rewardValue amt) := by
  refine ⟨fun hp => ⟨fun hn => ?_, fun m hm hm0 => ?_, fun h0 => ?_⟩,
    fun h => ?_, fun h => ?_, fun h => ?_, fun h => ?_⟩
  · simp only [calculateDiscount, hp, hn]
  · simp only [calculateDiscount, hp, hm]
    rcases lt_or_ge m (amt * c.rewardValue / 100) with hlt | hge
    · rw [if_pos ⟨hm0, hlt⟩, min_eq_right hlt.le]
    · rw [if_neg (by rintro ⟨-, h⟩; exact absurd h (not_lt.mpr hge)),
        min_eq_left hge]
  · simp only [calculateDiscount, hp, h0]; simp
  · simp only [calculateDiscount, h]
  · simp only [calculateDiscount, h]
  · simp only [calculateDiscount, h]
  · simp only [calculateDiscount, h]

/-- Witness for C9: the spec's fixture — a 10% coupon with cap 5 on a
purchase of 100 yields 5, not 10. -/
theorem calculateDiscount_spec_witness :
    capFiveCoupon.rewardType = RewardType.percentage ∧
    capFiveCoupon.maxDiscountAmount = some 5 ∧ (5 : ℚ) ≠ 0 ∧
    calculateDiscount capFiveCoupon 100 =
      min (100 * capFiveCoupon.rewardValue / 100) 5 ∧
    calculateDiscount capFiveCoupon 100 = 5 :=
  ⟨rfl, rfl, by norm_num,
   ((calculateDiscount_spec capFiveCoupon 100).1 rfl).2.1 5 rfl (by norm_num),
   by norm_num [calculateDiscount, capFiveCoupon, baseCoupon]⟩

/-- Counterexample for C9 as stated: a cap of `0` is set, yet a 10% coupon on
purchase 100 yields the uncapped 10 rather than the capped 0, because a `0`
cap is falsy in JS. -/
theorem calculateDiscount_zero_cap_cex :
    capZeroCoupon.maxDiscountAmount = some 0 ∧
    calculateDiscount capZeroCoupon 100 = 10 ∧ (10 : ℚ) ≠ 0 :=
  ⟨rfl, by norm_num [calculateDiscount, capZeroCoupon, baseCoupon], by norm_num⟩

/-! ## C8 — coupon validity -/

/-- C8 (amended): the Coupon model's `isValid` returns true iff the coupon's
`isActive` flag is set and its status is not `inactive`, `now` lies within
`[validFrom, validUntil]` (bounds checked only when set), the usage limit is
not exceeded for business-type coupons (a zero limit is falsy and means
unlimited), and — for review-reward coupons only — the coupon has not already
been redeemed. -/
theorem couponIsValid_iff (c : Coupon) (now : ℕ) :
    Coupon.isValid c now = true ↔
      (c.isActive = true ∧ c.status ≠ CouponStatus.inactive ∧
       (∀ vf, c.validFrom = some vf → vf ≤ now) ∧
       (∀ vu, c.validUntil = some vu → now ≤ vu) ∧
       (c.ctype = CouponType.business →
         ∀ l, c.usageLimit = some l → l ≠ 0 → c.usageCount < l) ∧
       (c.ctype = CouponType.review_reward →
         c.status ≠ CouponStatus.redeemed)) := by
  unfold Coupon.isValid validUntilLt
  cases hia : c.isActive <;> cases hst : c.status <;> cases hty : c.ctype <;>
    cases hvf : c.validFrom <;> cases hvu : c.validUntil <;>
      cases hul : c.usageLimit <;> simp_all <;> omega

/-- Witness for C8: the characterization applied to the base coupon at time
500. -/
theorem couponIsValid_iff_witness :
    Coupon.isValid baseCoupon 500 = true ∧
    baseCoupon.isActive = true ∧
    (∀ vf, baseCoupon.validFrom = some vf → vf ≤ 500) :=
  ⟨(couponIsValid_iff baseCoupon 500).mpr
     (by refine ⟨rfl, by decide, ?_, ?_, ?_, ?_⟩ <;> decide),
   rfl, by decide⟩

/-- Counterexample for C8 as stated: a business-type coupon whose status is
already `redeemed` (with `isActive = true` and in-window dates) is reported
valid, because the redeemed check applies only to review-reward coupons. -/
theorem couponIsValid_redeemed_cex :
    redeemedBusinessCoupon.status = CouponStatus.redeemed ∧
    Coupon.isValid redeemedBusinessCoupon 500 = true :=
  ⟨rfl, by decide⟩

/-! ## C4 — single terminal status transition -/

/-- C4: redeeming an already-redeemed or already-expired coupon fails with
the corresponding error and returns the coupon unchanged; the sweep leaves
non-active coupons untouched and changes a coupon only when it is an active
review-reward coupon past `validUntil`, and then only by setting its status
to `expired`; a scan of an active past-`validUntil` coupon expires it; a scan
of an active in-window coupon either leaves it unchanged or redeems it —
never expires it.  Hence each coupon makes at most one transition out of
`active`, to `redeemed` or to `expired`, both terminal and never both. -/
theorem coupon_single_transition (c : Coupon) (now rid : ℕ) :
    (c.status = CouponStatus.redeemed →
      scanRedeem now rid c = (RedeemOutcome.alreadyRedeemed, c)) ∧
    (c.status = CouponStatus.expired →
      scanRedeem now rid c = (RedeemOutcome.expired, c)) ∧
    (c.status ≠ CouponStatus.active → expireOne now c = c) ∧
    (expireOne now c ≠ c →
      c.ctype = CouponType.review_reward ∧ c.status = CouponStatus.active ∧
      validUntilLt c now = true ∧
      expireOne now c = { c with status := CouponStatus.expired }) ∧
    (c.status = CouponStatus.active → validUntilLt c now = true →
      scanRedeem now rid c =
        (RedeemOutcome.expired, { c with status := CouponStatus.expired })) ∧
    (c.status = CouponStatus.active → validUntilLt c now = false →
      (scanRedeem now rid c).2 = c ∨
      (scanRedeem now rid c).2 =
        { c with status := CouponStatus.redeemed,
                 redeemedAt := some now, redeemedBy := some rid }) := by
  refine ⟨fun h => ?_, fun h => ?_, fun h => ?_, fun h => ?_,
    fun h hv => ?_, fun h hv => ?_⟩
  · simp [scanRedeem, h]
  · simp [scanRedeem, h]
  · simp only [expireOne]
    rw [if_neg (by rintro ⟨-, h2, -⟩; exact h h2)]
  · by_cases hc : c.ctype = CouponType.review_reward ∧
      c.status = CouponStatus.active ∧ validUntilLt c now = true
    · exact ⟨hc.1, hc.2.1, hc.2.2, by simp [expireOne, hc]⟩
    · exact absurd (by simp only [expireOne]; rw [if_neg (by simpa using hc)]) h
  · simp [scanRedeem, h, hv]
  · simp only [scanRedeem, h, hv]
    by_cases hval : Coupon.isValid c now = true <;> simp [hval]

/-- Witness for C4: the conjunction applied to a concrete already-redeemed
coupon. -/
theorem coupon_single_transition_witness :
    ({ baseCoupon with status := CouponStatus.redeemed } : Coupon).status =
      CouponStatus.redeemed ∧
    scanRedeem 500 7 { baseCoupon with status := CouponStatus.redeemed } =
      (RedeemOutcome.alreadyRedeemed,
       { baseCoupon with status := CouponStatus.redeemed }) :=
  ⟨rfl,
   (coupon_single_transition
     { baseCoupon with status := CouponStatus.redeemed } 500 7).1 rfl⟩

/-! ## C3 — one review per actor per business per day -/

/-- C3: when the business resolves and is active and the actor already has a
review for it today, `createReview` leaves the store untouched (no review is
persisted) and rejects — as a duplicate whenever the rate limit has not
already fired first, regardless of the new submission's rating or comment. -/
theorem duplicate_day_guard (env : Env) (db : DB) (req : ReviewRequest)
    (b : Business)
    (hfind : db.businesses.find? (fun x => x.id = req.businessId) = some b)
    (hact : b.status = "active")
    (hdup : hasDuplicate db.reviews req.userId req.businessId
      (startOfDay env.now) = true) :
    (createReview env db req).db = db ∧
    ((createReview env db req).res = CreateResult.rateLimited ∨
      (createReview env db req).res = CreateResult.duplicate) ∧
    (countToday db.reviews req.userId (startOfDay env.now) < 5 →
      (createReview env db req).res = CreateResult.duplicate) := by
  by_cases hrate : 5 ≤ countToday db.reviews req.userId (startOfDay env.now)
  · simp only [createReview, hfind]
    rw [if_neg (by simp [hact]), if_pos hrate]
    exact ⟨rfl, Or.inl rfl, fun h => absurd hrate (not_le.mpr h)⟩
  · simp only [createReview, hfind]
    rw [if_neg (by simp [hact]), if_neg hrate, if_pos (by simp [hdup])]
    exact ⟨rfl, Or.inr rfl, fun _ => rfl⟩

/-- Witness for C3: user 3 already reviewed business 1 today; a second
submission (different rating and comment) is rejected as a duplicate and the
store is unchanged. -/
theorem duplicate_day_guard_witness :
    hasDuplicate dupDb.reviews baseReq.userId baseReq.businessId
      (startOfDay trivEnv.now) = true ∧
    dupReview.rating ≠ baseReq.rating ∧
    (createReview trivEnv dupDb baseReq).db = dupDb ∧
    (createReview trivEnv dupDb baseReq).res = CreateResult.duplicate :=
  ⟨by decide, by norm_num [dupReview, baseReq],
   (duplicate_day_guard trivEnv dupDb baseReq baseBusiness rfl rfl
     (by decide)).1,
   (duplicate_day_guard trivEnv dupDb baseReq baseBusiness rfl rfl
     (by decide)).2.2 (by decide)⟩

/-! ## C10 — absent security metadata is treated as clean -/

/-- C10: when every security-metadata field is absent, the fraud stage
performs no rejection and records no suspicious-activity entry (each check is
skipped), and once the rate, duplicate and geofence checks pass the review is
persisted with `verified = true`. -/
theorem clean_metadata_verified (env : Env) (db : DB) (req : ReviewRequest)
    (b : Business)
    (hfind : db.businesses.find? (fun x => x.id = req.businessId) = some b)
    (hact : b.status = "active")
    (hrate : countToday db.reviews req.userId (startOfDay env.now) < 5)
    (hdup : hasDuplicate db.reviews req.userId req.businessId
      (startOfDay env.now) = false)
    (hgeo : env.geoWithin req.latitude req.longitude b.lat b.lon b.radius
      = true)
    (hmeta : req.meta = emptyMeta) :
    (∀ uid bid today rs,
      fraudEval uid bid today emptyMeta rs = (FraudDecision.proceed, [])) ∧
    (createReview env db req).logs = [] ∧
    (∃ r, (createReview env db req).db.reviews = db.reviews ++ [r] ∧
      r.verified = true ∧ r.user = req.userId ∧ r.business = req.businessId ∧
      r.rating = req.rating) ∧
    ((createReview env db req).res =
        CreateResult.createdNoCoupon env.newReviewId ∨
      (createReview env db req).res =
        CreateResult.createdWithCoupon env.newReviewId env.newCouponId) := by
  rw [createReview_guards env db req b hfind hact hrate hdup hgeo]
  refine ⟨fraudEval_emptyMeta, ?_⟩
  simp only [afterGuards, hmeta, fraudEval_emptyMeta, persistAndReward]
  by_cases hl : limitReached db.coupons req.businessId = true
  · rw [if_pos hl]
    exact ⟨rfl, ⟨_, rfl, rfl, rfl, rfl, rfl⟩, Or.inl rfl⟩
  · rw [if_neg hl]
    exact ⟨rfl, ⟨_, rfl, rfl, rfl, rfl, rfl⟩, Or.inr rfl⟩

/-- Witness for C10: a metadata-free submission against a clean store is
created with a coupon, logs nothing, and the stored review is verified. -/
theorem clean_metadata_verified_witness :
    baseReq.meta = emptyMeta ∧
    (createReview trivEnv cleanDb baseReq).logs = [] ∧
    (∃ r, (createReview trivEnv cleanDb baseReq).db.reviews =
        cleanDb.reviews ++ [r] ∧
      r.verified = true ∧ r.user = baseReq.userId ∧
      r.business = baseReq.businessId ∧ r.rating = baseReq.rating) :=
  ⟨rfl,
   (clean_metadata_verified trivEnv cleanDb baseReq baseBusiness rfl rfl
     (by decide) (by decide) rfl rfl).2.1,
   (clean_metadata_verified trivEnv cleanDb baseReq baseBusiness rfl rfl
     (by decide) (by decide) rfl rfl).2.2.1⟩

/-! ## C6 — two-hour validity window -/

/-- C6: `calculateCouponExpiry` adds exactly two hours, and every coupon that
`createReview` adds to the store (the only review-reward coupons it creates)
has `validFrom = now` and `validUntil = now + 2h`, so the window length is
exactly 7,200,000 ms — within the claimed ±1 s tolerance.  The id-uniqueness
hypothesis rules out a store that already contains two distinct coupons with
one id. -/
theorem reward_window_two_hours (env : Env) (db : DB) (req : ReviewRequest)
    (hu : db.coupons.Pairwise (fun a b => a.id ≠ b.id)) :
    (∀ now, calculateCouponExpiry now 2 = now + 7200000) ∧
    ∀ c, c ∈ (createReview env db req).db.coupons → c ∉ db.coupons →
      c.ctype = CouponType.review_reward →
      c.validFrom = some env.now ∧ c.validUntil = some (env.now + 7200000) ∧
      (env.now + 7200000) - env.now = 7200000 := by
  refine ⟨fun now => rfl, fun c hc hnot hrr => ?_⟩
  unfold createReview at hc
  cases hfind : db.businesses.find? (fun x => x.id = req.businessId) with
  | none =>
    rw [hfind] at hc
    exact absurd hc hnot
  | some b =>
    rw [hfind] at hc
    dsimp only at hc
    unfold afterGuards persistAndReward at hc
    cases htpl : findActiveTemplate db.coupons req.businessId with
    | none =>
      rw [htpl] at hc
      dsimp only at hc
      repeat split at hc <;> try exact absurd hc hnot
      rcases List.mem_append.mp hc with hmem | hmint
      · exact absurd hmem hnot
      · rw [List.mem_singleton.mp hmint]
        exact ⟨rfl, rfl, by omega⟩
    | some t =>
      rw [htpl] at hc
      dsimp only at hc
      repeat split at hc <;> try exact absurd hc hnot
      rcases List.mem_append.mp hc with hmem | hmint
      · rcases List.mem_map.mp hmem with ⟨x, hx, hxe⟩
        by_cases hid : x.id = t.id
        · rw [if_pos hid] at hxe
          have ht := findActiveTemplate_spec htpl
          have hxt : x = t := eq_of_id_eq hu hx ht.1 hid
          rw [← hxe, hxt] at hrr
          rw [ht.2.2.1] at hrr
          exact absurd hrr (by simp)
        · rw [if_neg hid] at hxe
          rw [← hxe] at hnot
          exact absurd hx hnot
      · rw [List.mem_singleton.mp hmint]
        exact ⟨rfl, rfl, by omega⟩

/-- Witness for C6: on a clean store, the created coupon's window is exactly
two hours. -/
theorem reward_window_two_hours_witness :
    calculateCouponExpiry 864005000 2 = 864005000 + 7200000 ∧
    ∀ c, c ∈ (createReview trivEnv cleanDb baseReq).db.coupons →
      c ∉ cleanDb.coupons → c.ctype = CouponType.review_reward →
      c.validFrom = some 864005000 ∧ c.validUntil = some 871205000 :=
  ⟨(reward_window_two_hours trivEnv cleanDb baseReq (by decide)).1 864005000,
   fun c hc hn hr =>
     ⟨((reward_window_two_hours trivEnv cleanDb baseReq (by decide)).2
        c hc hn hr).1,
      ((reward_window_two_hours trivEnv cleanDb baseReq (by decide)).2
        c hc hn hr).2.1⟩⟩

/-! ## C5 — redemption limit gate and template-or-default mint values -/

/-- C5 (amended): under passing guards, the redemption-limit gate fires
exactly when an active template has a non-null `redemptionLimit` and the
count of redeemed review-reward coupons for the business has reached it; then
the review is still persisted but no coupon is minted.  Otherwise a coupon is
minted from the active template — using its `rewardType`, and its
`rewardValue`, `minPurchaseAmount` and `maxDiscountAmount` when those are
non-zero, a zero `rewardValue` falling back to the default 10 and a zero cap
to no cap (JS `||` on falsy values) — or from the defaults (percentage, 10,
no cap) when no active template exists. -/
theorem reward_limit_and_defaults (env : Env) (db : DB) (req : ReviewRequest)
    (b : Business)
    (hfind : db.businesses.find? (fun x => x.id = req.businessId) = some b)
    (hact : b.status = "active")
    (hrate : countToday db.reviews req.userId (startOfDay env.now) < 5)
    (hdup : hasDuplicate db.reviews req.userId req.businessId
      (startOfDay env.now) = false)
    (hgeo : env.geoWithin req.latitude req.longitude b.lat b.lon b.radius
      = true)
    (hfraud : (fraudEval req.userId req.businessId (startOfDay env.now)
      req.meta db.reviews).1 = FraudDecision.proceed) :
    (limitReached db.coupons req.businessId = true ↔
      ∃ t lim, findActiveTemplate db.coupons req.businessId = some t ∧
        t.redemptionLimit = some lim ∧
        lim ≤ countRedeemed db.coupons req.businessId) ∧
    (limitReached db.coupons req.businessId = true →
      (createReview env db req).res =
        CreateResult.createdNoCoupon env.newReviewId ∧
      (createReview env db req).db.coupons = db.coupons ∧
      (createReview env db req).db.reviews = db.reviews ++
        [newReview env req
          (env.geoDistance req.latitude req.longitude b.lat b.lon)]) ∧
    (limitReached db.coupons req.businessId = false →
      (createReview env db req).res =
        CreateResult.createdWithCoupon env.newReviewId env.newCouponId ∧
      ∃ pre, (createReview env db req).db.coupons = pre ++
        [mintCoupon env req.businessId req.userId env.newReviewId
          (findActiveTemplate db.coupons req.businessId)]) ∧
    (∀ t : Coupon, mintRewardType (some t) = t.rewardType ∧
      (t.rewardValue ≠ 0 → mintRewardValue (some t) = t.rewardValue) ∧
      (t.rewardValue = 0 → mintRewardValue (some t) = 10) ∧
      (∀ m, t.maxDiscountAmount = some m → m ≠ 0 →
        mintMaxDiscount (some t) = some m) ∧
      (t.maxDiscountAmount = some 0 ∨ t.maxDiscountAmount = none →
        mintMaxDiscount (some t) = none) ∧
      (t.minPurchaseAmount ≠ 0 →
        mintMinPurchase (some t) = t.minPurchaseAmount)) ∧
    (mintRewardType none = RewardType.percentage ∧
      mintRewardValue none = 10 ∧ mintMaxDiscount none = none ∧
      mintMinPurchase none = 0) := by
  have hg := createReview_guards env db req b hfind hact hrate hdup hgeo
  rcases hfe : fraudEval req.userId req.businessId (startOfDay env.now)
    req.meta db.reviews with ⟨d, logs⟩
  rw [hfe] at hfraud
  simp only at hfraud
  subst hfraud
  have hag : createReview env db req = persistAndReward env db req b logs := by
    rw [hg]; unfold afterGuards; rw [hfe]
  refine ⟨?_, fun hl => ?_, fun hl => ?_, fun t => ?_, ⟨rfl, rfl, rfl, rfl⟩⟩
  · unfold limitReached
    cases htpl : findActiveTemplate db.coupons req.businessId with
    | none => simp
    | some t =>
      cases hrl : t.redemptionLimit with
      | none => simp [hrl]
      | some lim =>
        simp only [hrl, decide_eq_true_eq]
        constructor
        · exact fun h => ⟨t, lim, rfl, hrl, h⟩
        · rintro ⟨t2, lim2, ht2, hl2, hcnt⟩
          cases ht2
          rw [hrl] at hl2
          cases hl2
          exact hcnt
  · rw [hag]
    unfold persistAndReward
    rw [if_pos hl]
    exact ⟨rfl, rfl, rfl⟩
  · rw [hag]
    unfold persistAndReward
    rw [if_neg (by simp [hl])]
    cases htpl : findActiveTemplate db.coupons req.businessId with
    | none => exact ⟨rfl, db.coupons, rfl⟩
    | some t => exact ⟨rfl, _, rfl⟩
  · refine ⟨rfl, fun h0 => ?_, fun h0 => ?_, fun m hm hm0 => ?_,
      fun hcap => ?_, fun hmp => ?_⟩
    · simp [mintRewardValue, h0]
    · simp [mintRewardValue, h0]
    · simp [mintMaxDiscount, hm, hm0]
    · rcases hcap with h | h <;> simp [mintMaxDiscount, h]
    · simp [mintMinPurchase, hmp]

/-- Witness for C5: with a limit-1 template and one already-redeemed reward
coupon, a clean submission still creates the review but no coupon is minted;
the gate condition holds. -/
theorem reward_limit_and_defaults_witness :
    limitReached limitDb.coupons baseReq.businessId = true ∧
    (createReview trivEnv limitDb baseReq).res =
      CreateResult.createdNoCoupon 100 ∧
    (createReview trivEnv limitDb baseReq).db.coupons = limitDb.coupons ∧
    (createReview trivEnv limitDb baseReq).db.reviews.length = 1 :=
  ⟨by decide,
   ((reward_limit_and_defaults trivEnv limitDb baseReq baseBusiness rfl rfl
      (by decide) (by decide) rfl rfl).2.1 (by decide)).1,
   ((reward_limit_and_defaults trivEnv limitDb baseReq baseBusiness rfl rfl
      (by decide) (by decide) rfl rfl).2.1 (by decide)).2.1,
   by rw [((reward_limit_and_defaults trivEnv limitDb baseReq baseBusiness rfl
        rfl (by decide) (by decide) rfl rfl).2.1 (by decide)).2.2]
      rfl⟩

/-- Counterexample for C5 as stated: an active template with `rewardValue =
0` exists, yet the minted coupon's `rewardValue` is the default 10, not the
template's 0, because `couponTemplate?.rewardValue || 10` treats 0 as
absent. -/
theorem reward_zero_value_cex :
    (findActiveTemplate c5db.coupons baseReq.businessId).map
      (fun t => t.rewardValue) = some 0 ∧
    (createReview trivEnv c5db baseReq).db.coupons.map
      (fun c => c.rewardValue) = [0, 10] := by
  constructor
  · rfl
  · norm_num [createReview, afterGuards, persistAndReward, newReview,
      limitReached, findActiveTemplate, countRedeemed, mintCoupon,
      mintRewardType, mintRewardValue, mintMinPurchase, mintMaxDiscount,
      ratingSum, countToday, hasDuplicate, startOfDay, fraudEval, vtLog,
      histLog, frontendLog, deviceLog, countSameDevice, trivEnv, c5db,
      baseReq, baseBusiness, zeroValueTemplate, baseCoupon, emptyMeta]

/-! ## C7 — full rating re-aggregation -/

/-- C7 (amended): after a successful submission, every stored business record
with the submission's business id carries `ratingAverage` equal to the
arithmetic mean of the ratings of **all** reviews of that business now in the
store — regardless of review status, not just approved ones — recomputed in
full, with `ratingCount` (and `reviewCount`) equal to the total number of the
business's reviews. -/
theorem rating_recompute (env : Env) (db : DB) (req : ReviewRequest)
    (b : Business)
    (hfind : db.businesses.find? (fun x => x.id = req.businessId) = some b)
    (hact : b.status = "active")
    (hrate : countToday db.reviews req.userId (startOfDay env.now) < 5)
    (hdup : hasDuplicate db.reviews req.userId req.businessId
      (startOfDay env.now) = false)
    (hgeo : env.geoWithin req.latitude req.longitude b.lat b.lon b.radius
      = true)
    (hfraud : (fraudEval req.userId req.businessId (startOfDay env.now)
      req.meta db.reviews).1 = FraudDecision.proceed) :
    (∃ x, x ∈ (createReview env db req).db.businesses ∧
      x.id = req.businessId) ∧
    ∀ x, x ∈ (createReview env db req).db.businesses →
      x.id = req.businessId →
      x.ratingAverage =
        ratingSum ((createReview env db req).db.reviews.filter
            (fun r => r.business = req.businessId)) /
          ((((createReview env db req).db.reviews.filter
            (fun r => r.business = req.businessId)).length : ℚ)) ∧
      x.ratingCount =
        ((createReview env db req).db.reviews.filter
          (fun r => r.business = req.businessId)).length ∧
      x.reviewCount =
        ((createReview env db req).db.reviews.filter
          (fun r => r.business = req.businessId)).length := by
  have hbid : b.id = req.businessId := by
    simpa using List.find?_some hfind
  have hg := createReview_guards env db req b hfind hact hrate hdup hgeo
  rcases hfe : fraudEval req.userId req.businessId (startOfDay env.now)
    req.meta db.reviews with ⟨d, logs⟩
  rw [hfe] at hfraud
  simp only at hfraud
  subst hfraud
  have hag : createReview env db req = persistAndReward env db req b logs := by
    rw [hg]; unfold afterGuards; rw [hfe]
  rw [hag]
  unfold persistAndReward
  dsimp only
  by_cases hl : limitReached db.coupons req.businessId = true
  · rw [if_pos hl]
    dsimp only
    constructor
    · exact ⟨_, List.mem_map.mpr ⟨b, List.mem_of_find?_eq_some hfind, rfl⟩,
        by rw [if_pos rfl]; exact hbid⟩
    · intro x hx hxid
      rcases List.mem_map.mp hx with ⟨xi, hxi, hxe⟩
      by_cases hid : xi.id = b.id
      · rw [if_pos hid] at hxe
        rw [← hxe]
        exact ⟨rfl, rfl, rfl⟩
      · rw [if_neg hid] at hxe
        rw [← hxe] at hxid
        exact absurd (hxid.trans hbid.symm) hid
  · rw [if_neg hl]
    dsimp only
    rw [filter_business_snoc db.reviews _ req.businessId rfl,
      filter_business_snoc db.reviews _ req.businessId rfl,
      ratingSum_snoc, ratingSum_snoc]
    constructor
    · exact ⟨_, List.mem_map.mpr ⟨b, List.mem_of_find?_eq_some hfind, rfl⟩,
        by rw [if_pos rfl]; exact hbid⟩
    · intro x hx hxid
      rcases List.mem_map.mp hx with ⟨xi, hxi, hxe⟩
      by_cases hid : xi.id = b.id
      · rw [if_pos hid] at hxe
        rw [← hxe]
        refine ⟨?_, ?_, ?_⟩ <;> simp
      · rw [if_neg hid] at hxe
        rw [← hxe] at hxid
        exact absurd (hxid.trans hbid.symm) hid

/-- Witness for C7 (amended): a clean run over an empty review store yields a
stored average equal to the mean over all (one) reviews. -/
theorem rating_recompute_witness :
    (∃ x, x ∈ (createReview trivEnv cleanDb baseReq).db.businesses ∧
      x.id = baseReq.businessId) ∧
    ∀ x, x ∈ (createReview trivEnv cleanDb baseReq).db.businesses →
      x.id = baseReq.businessId →
      x.ratingAverage =
        ratingSum ((createReview trivEnv cleanDb baseReq).db.reviews.filter
            (fun r => r.business = baseReq.businessId)) /
          ((((createReview trivEnv cleanDb baseReq).db.reviews.filter
            (fun r => r.business = baseReq.businessId)).length : ℚ)) :=
  ⟨(rating_recompute trivEnv cleanDb baseReq baseBusiness rfl rfl (by decide)
      (by decide) rfl rfl).1,
   fun x hx hxid =>
     ((rating_recompute trivEnv cleanDb baseReq baseBusiness rfl rfl
       (by decide) (by decide) rfl rfl).2 x hx hxid).1⟩

/-- Counterexample for C7 as stated: with one rejected-status rating-1 review
already stored, a new rating-5 submission leaves the business average at 3 —
the mean over all reviews — while the mean over approved reviews alone is
5. -/
theorem rating_recompute_approved_cex :
    ((createReview trivEnv c7db baseReq).db.businesses.map
      (fun x => x.ratingAverage)) = [3] ∧
    (((createReview trivEnv c7db baseReq).db.reviews.filter
        (fun r => r.status = "approved")).map (fun r => r.rating)) = [5] ∧
    (3 : ℚ) ≠ 5 := by
  refine ⟨?_, ?_, by norm_num⟩ <;>
    · norm_num [createReview, afterGuards, persistAndReward, newReview,
        limitReached, findActiveTemplate, countRedeemed, mintCoupon,
        mintRewardType, mintRewardValue, mintMinPurchase, mintMaxDiscount,
        ratingSum, countToday, hasDuplicate, startOfDay, fraudEval, vtLog,
        histLog, frontendLog, deviceLog, countSameDevice, trivEnv, c7db,
        baseReq, baseBusiness, rejectedReview, emptyMeta]
      try decide

/-! ## C1 — fraud rule order and outcomes -/

/-- C1 (amended): the fraud rules run in the order (1) GPS accuracy > 50 m →
reject `POOR_GPS_ACCURACY`; (2) mock location → reject; (3) location-history
count < 5 → log only; (4)/(5) client-reported anomalies — each logged, count
≥ 3 → reject, count 1–2 → proceed; (6) same-device count today ≥ 3 → log
only and proceed.  Every flagged or rejected signal appends a
suspicious-activity entry (the log lists below), and a rejection halts
`createReview` with the store unchanged, before any review is persisted. -/
theorem fraud_rules_order (env : Env) (db : DB) (req : ReviewRequest)
    (b : Business) :
    (∀ uid bid today m rs a, m.locationAccuracy = some a → 50 < a →
      fraudEval uid bid today m rs =
        (FraudDecision.reject FraudReject.poorGpsAccuracy,
         [⟨uid, "POOR_GPS_ACCURACY", bid⟩])) ∧
    (∀ uid bid today m rs, (∀ a, m.locationAccuracy = some a → a ≤ 50) →
      m.isMockLocation = some true →
      fraudEval uid bid today m rs =
        (FraudDecision.reject FraudReject.mockLocation,
         vtLog uid bid m ++ [⟨uid, "MOCK_LOCATION_DETECTED", bid⟩])) ∧
    (∀ uid bid today m rs, (∀ a, m.locationAccuracy = some a → a ≤ 50) →
      m.isMockLocation ≠ some true →
      ∀ l, m.suspiciousActivities = some l → 3 ≤ l.length →
      fraudEval uid bid today m rs =
        (FraudDecision.reject FraudReject.multipleConcerns,
         vtLog uid bid m ++ histLog uid bid m ++ frontendLog uid bid m)) ∧
    (∀ uid bid today m rs, (∀ a, m.locationAccuracy = some a → a ≤ 50) →
      m.isMockLocation ≠ some true →
      (∀ l, m.suspiciousActivities = some l → l.length < 3) →
      fraudEval uid bid today m rs =
        (FraudDecision.proceed,
         vtLog uid bid m ++ histLog uid bid m ++ frontendLog uid bid m ++
           deviceLog uid bid today m rs)) ∧
    (∀ k logs,
      db.businesses.find? (fun x => x.id = req.businessId) = some b →
      b.status = "active" →
      countToday db.reviews req.userId (startOfDay env.now) < 5 →
      hasDuplicate db.reviews req.userId req.businessId (startOfDay env.now)
        = false →
      env.geoWithin req.latitude req.longitude b.lat b.lon b.radius = true →
      fraudEval req.userId req.businessId (startOfDay env.now) req.meta
        db.reviews = (FraudDecision.reject k, logs) →
      createReview env db req =
        ⟨CreateResult.fraudRejected k, db, logs⟩) := by
  refine ⟨?_, ?_, ?_, ?_, ?_⟩
  · intro uid bid today m rs a ha hgt
    unfold fraudEval
    rw [if_pos (by rw [ha]; simpa using hgt)]
  · intro uid bid today m rs hacc hmock
    unfold fraudEval
    rw [if_neg ?_, if_pos (by rw [hmock])]
    cases hla : m.locationAccuracy with
    | none => simp
    | some a => simpa using not_lt.mpr (hacc a hla)
  · intro uid bid today m rs hacc hmock l hl hlen
    unfold fraudEval
    rw [if_neg ?_, if_neg ?_, if_pos (by rw [hl]; simpa using hlen)]
    · cases hml : m.isMockLocation with
      | none => simp
      | some v =>
        cases v
        · simp
        · exact absurd hml hmock
    · cases hla : m.locationAccuracy with
      | none => simp
      | some a => simpa using not_lt.mpr (hacc a hla)
  · intro uid bid today m rs hacc hmock hfew
    unfold fraudEval
    rw [if_neg ?_, if_neg ?_, if_neg ?_]
    · cases hl : m.suspiciousActivities with
      | none => simp
      | some l => simpa using not_le.mpr (hfew l hl)
    · cases hml : m.isMockLocation with
      | none => simp
      | some v =>
        cases v
        · simp
        · exact absurd hml hmock
    · cases hla : m.locationAccuracy with
      | none => simp
      | some a => simpa using not_lt.mpr (hacc a hla)
  · intro k logs hfind hact hrate hdup hgeo hfe
    rw [createReview_guards env db req b hfind hact hrate hdup hgeo]
    unfold afterGuards
    rw [hfe]

/-- Witness for C1 (amended): a mock-location submission (accuracy absent) is
rejected with exactly the mock-location log entry, and on a full run with
that metadata `createReview` rejects with the store unchanged. -/
theorem fraud_rules_order_witness :
    fraudEval 3 1 864000000
        { emptyMeta with isMockLocation := some true } [] =
      (FraudDecision.reject FraudReject.mockLocation,
       [⟨3, "MOCK_LOCATION_DETECTED", 1⟩]) ∧
    createReview trivEnv
        { cleanDb with businesses := [baseBusiness] }
        { baseReq with meta := { emptyMeta with isMockLocation := some true } }
      = ⟨CreateResult.fraudRejected FraudReject.mockLocation,
         { cleanDb with businesses := [baseBusiness] },
         [⟨3, "MOCK_LOCATION_DETECTED", 1⟩]⟩ :=
  ⟨(fraud_rules_order trivEnv cleanDb baseReq baseBusiness).2.1 3 1 864000000
     { emptyMeta with isMockLocation := some true } []
     (fun a ha => by cases ha) rfl,
   (fraud_rules_order trivEnv { cleanDb with businesses := [baseBusiness] }
     { baseReq with meta := { emptyMeta with isMockLocation := some true } }
     baseBusiness).2.2.2.2
     FraudReject.mockLocation [⟨3, "MOCK_LOCATION_DETECTED", 1⟩] rfl rfl
     (by decide) (by decide) rfl (by decide)⟩

/-- Counterexample for C1 as stated: with history count 2 and three reported
anomalies, the code still evaluates (and logs) the location-history rule even
though the anomaly rule rejects — and the history entry precedes the anomaly
entries — so the anomaly rules (claimed order 3/4) do not run before the
location-history rule (claimed order 5). -/
theorem fraud_rules_order_cex :
    fraudEval 7 9 0 c1meta [] =
      (FraudDecision.reject FraudReject.multipleConcerns,
       [⟨7, "INSUFFICIENT_LOCATION_HISTORY", 9⟩, ⟨7, "FRONTEND_A", 9⟩,
        ⟨7, "FRONTEND_B", 9⟩, ⟨7, "FRONTEND_C", 9⟩]) ∧
    c1meta.locationHistoryCount = some 2 ∧
    (c1meta.suspiciousActivities.map (fun l => l.length)) = some 3 := by
  refine ⟨by decide, rfl, rfl⟩

/-! ## C2 — geofence containment -/

theorem jbin_none_left (f : ℝ → ℝ → ℝ) (b : JsNum) : jbin f none b = none := by
  cases b <;> rfl

theorem jbin_none_right (f : ℝ → ℝ → ℝ) (a : JsNum) : jbin f a none = none := by
  cases a <;> rfl

theorem jmap_none (f : ℝ → ℝ) : jmap f none = none := rfl

theorem jsqrt_none : jsqrt none = none := rfl

theorem jle_none_left (r : JsNum) : jle none r = false := by
  cases r <;> rfl

theorem jle_none_right (a : JsNum) : jle a none = false := by
  cases a <;> rfl

/-- NaN propagation: a NaN first coordinate gives a NaN distance. -/
theorem calculateDistance_nan1 (b c d : JsNum) :
    calculateDistance none b c d = none := by
  simp [calculateDistance, jmul, jadd, jsub, jdiv, jsin, jcos, jatan2,
    jsqrt_none, jmap_none, jbin_none_left, jbin_none_right]

/-- NaN propagation: a NaN second coordinate gives a NaN distance. -/
theorem calculateDistance_nan2 (a c d : JsNum) :
    calculateDistance a none c d = none := by
  simp [calculateDistance, jmul, jadd, jsub, jdiv, jsin, jcos, jatan2,
    jsqrt_none, jmap_none, jbin_none_left, jbin_none_right]

/-- NaN propagation: a NaN third coordinate gives a NaN distance. -/
theorem calculateDistance_nan3 (a b d : JsNum) :
    calculateDistance a b none d = none := by
  simp [calculateDistance, jmul, jadd, jsub, jdiv, jsin, jcos, jatan2,
    jsqrt_none, jmap_none, jbin_none_left, jbin_none_right]

/-- NaN propagation: a NaN fourth coordinate gives a NaN distance. -/
theorem calculateDistance_nan4 (a b c : JsNum) :
    calculateDistance a b c none = none := by
  simp [calculateDistance, jmul, jadd, jsub, jdiv, jsin, jcos, jatan2,
    jsqrt_none, jmap_none, jbin_none_left, jbin_none_right]

/-- Cosine of a latitude (in degrees, within ±90) converted to radians is
nonnegative. -/
theorem cosdeg_nonneg (lat : ℝ) (hl : -90 ≤ lat) (hu : lat ≤ 90) :
    0 ≤ Real.cos (lat * Real.pi / 180) := by
  apply Real.cos_nonneg_of_mem_Icc
  constructor
  · nlinarith [Real.pi_pos,
      mul_nonneg (by linarith : (0:ℝ) ≤ lat + 90) Real.pi_pos.le]
  · nlinarith [Real.pi_pos,
      mul_nonneg (by linarith : (0:ℝ) ≤ 90 - lat) Real.pi_pos.le]

/-- The haversine intermediate value `a` is at most 1 when both cosines are
nonnegative. -/
theorem hav_le_one (p1 p2 y : ℝ) (hc1 : 0 ≤ Real.cos p1)
    (hc2 : 0 ≤ Real.cos p2) :
    Real.sin ((p2 - p1) / 2) * Real.sin ((p2 - p1) / 2) +
      Real.cos p1 * Real.cos p2 * (Real.sin y * Real.sin y) ≤ 1 := by
  have hss : Real.sin ((p2 - p1) / 2) * Real.sin ((p2 - p1) / 2) =
      Real.sin ((p2 - p1) / 2) ^ 2 := (pow_two _).symm
  have hsin2 : Real.sin ((p2 - p1) / 2) ^ 2 =
      1 - Real.cos ((p2 - p1) / 2) ^ 2 := Real.sin_sq _
  have hcos2 : Real.cos (p2 - p1) = 2 * Real.cos ((p2 - p1) / 2) ^ 2 - 1 := by
    rw [← Real.cos_two_mul]
    congr 1
    ring
  have hsub : Real.cos (p2 - p1) =
      Real.cos p2 * Real.cos p1 + Real.sin p2 * Real.sin p1 := Real.cos_sub _ _
  have hadd : Real.cos (p2 + p1) =
      Real.cos p2 * Real.cos p1 - Real.sin p2 * Real.sin p1 := Real.cos_add _ _
  have h1 : Real.cos (p2 + p1) ≤ 1 := Real.cos_le_one _
  have hy : Real.sin y * Real.sin y ≤ 1 := by
    have h := Real.sin_sq_le_one y
    nlinarith [h]
  have hCq : Real.cos p1 * Real.cos p2 * (Real.sin y * Real.sin y) ≤
      Real.cos p1 * Real.cos p2 :=
    mul_le_of_le_one_right (mul_nonneg hc1 hc2) hy
  nlinarith [hss, hsin2, hcos2, hsub, hadd, h1, hCq]

/-- On real inputs with geographically valid latitudes, `calculateDistance`
returns the real haversine distance (both square roots are of nonnegative
arguments). -/
theorem calculateDistance_real (lat1 lon1 lat2 lon2 : ℝ)
    (h1l : -90 ≤ lat1) (h1u : lat1 ≤ 90)
    (h2l : -90 ≤ lat2) (h2u : lat2 ≤ 90) :
    calculateDistance (some lat1) (some lon1) (some lat2) (some lon2) =
      some (haversineDistance lat1 lon1 lat2 lon2) := by
  have hc1 := cosdeg_nonneg lat1 h1l h1u
  have hc2 := cosdeg_nonneg lat2 h2l h2u
  have ha0 : 0 ≤
      Real.sin ((lat2 - lat1) * Real.pi / 180 / 2) *
        Real.sin ((lat2 - lat1) * Real.pi / 180 / 2) +
      Real.cos (lat1 * Real.pi / 180) * Real.cos (lat2 * Real.pi / 180) *
        (Real.sin ((lon2 - lon1) * Real.pi / 180 / 2) *
          Real.sin ((lon2 - lon1) * Real.pi / 180 / 2)) :=
    add_nonneg (mul_self_nonneg _)
      (mul_nonneg (mul_nonneg hc1 hc2) (mul_self_nonneg _))
  have hdphi : (lat2 - lat1) * Real.pi / 180 / 2 =
      (lat2 * Real.pi / 180 - lat1 * Real.pi / 180) / 2 := by ring
  have ha1 :
      Real.sin ((lat2 - lat1) * Real.pi / 180 / 2) *
        Real.sin ((lat2 - lat1) * Real.pi / 180 / 2) +
      Real.cos (lat1 * Real.pi / 180) * Real.cos (lat2 * Real.pi / 180) *
        (Real.sin ((lon2 - lon1) * Real.pi / 180 / 2) *
          Real.sin ((lon2 - lon1) * Real.pi / 180 / 2)) ≤ 1 := by
    rw [hdphi]
    exact hav_le_one (lat1 * Real.pi / 180) (lat2 * Real.pi / 180)
      ((lon2 - lon1) * Real.pi / 180 / 2) hc1 hc2
  simp only [calculateDistance, haversineDistance, jmul, jadd, jsub, jdiv,
    jsin, jcos, jatan2, jbin, jmap, jsqrt]
  rw [if_neg (not_lt.mpr ha0), if_neg (not_lt.mpr (by linarith))]

/-- C2: `isWithinGeofence` returns true iff the haversine great-circle
distance is at most `radiusMeters` (boundary inclusive) on real inputs with
geographically valid latitudes, and any NaN input makes it return false; it
is a total function, so it never throws. -/
theorem isWithinGeofence_spec :
    (∀ (lat1 lon1 lat2 lon2 r : ℝ),
      -90 ≤ lat1 → lat1 ≤ 90 → -90 ≤ lat2 → lat2 ≤ 90 →
      (isWithinGeofence (some lat1) (some lon1) (some lat2) (some lon2)
          (some r) = true ↔
        haversineDistance lat1 lon1 lat2 lon2 ≤ r)) ∧
    (∀ a b c d r : JsNum,
      a = none ∨ b = none ∨ c = none ∨ d = none ∨ r = none →
      isWithinGeofence a b c d r = false) := by
  constructor
  · intro lat1 lon1 lat2 lon2 r h1l h1u h2l h2u
    unfold isWithinGeofence
    rw [calculateDistance_real lat1 lon1 lat2 lon2 h1l h1u h2l h2u]
    simp [jle]
  · rintro a b c d r (rfl | rfl | rfl | rfl | rfl)
    · unfold isWithinGeofence
      rw [calculateDistance_nan1]
      exact jle_none_left r
    · unfold isWithinGeofence
      rw [calculateDistance_nan2]
      exact jle_none_left r
    · unfold isWithinGeofence
      rw [calculateDistance_nan3]
      exact jle_none_left r
    · unfold isWithinGeofence
      rw [calculateDistance_nan4]
      exact jle_none_left r
    · exact jle_none_right _

/-- Witness for C2: the characterization applied at the origin with radius
50, and the all-NaN call returning false. -/
theorem isWithinGeofence_spec_witness :
    ((-90 : ℝ) ≤ 0 ∧ (0 : ℝ) ≤ 90) ∧
    (isWithinGeofence (some 0) (some 0) (some 0) (some 0) (some 50) = true ↔
      haversineDistance 0 0 0 0 ≤ 50) ∧
    isWithinGeofence none none none none none = false :=
  ⟨⟨by norm_num, by norm_num⟩,
   isWithinGeofence_spec.1 0 0 0 0 50 (by norm_num) (by norm_num)
     (by norm_num) (by norm_num),
   isWithinGeofence_spec.2 none none none none none (Or.inl rfl)⟩

end Hashview
